import Mathlib

/-!
# Verification of `sn-providing` query construction and retrieval dispatch

Shallow embedding of `src/sn_providing/construct_query.py` and
`src/sn_providing/addinfo_retrieval.py`, followed by theorems settling the
specification claims about them.

Conventions:
* Python `int` is modelled by `Int` (`Nat` where the value is a length);
  Python strings by `String` (logically a list of characters, as in Python
  where `len` counts code points).
* Fallible Python code (exceptions) is modelled by `Option`/`Except`.
* External collaborators (the LLM, the embedding service, the text
  splitter) are opaque function parameters.
-/

namespace SnProviding

/-! ## Data model of `construct_query.py` -/

/-- `SpottingData` dataclass (construct_query.py lines 21-29): one detection
record.  `confidence` is carried opaquely as a rational (its value never
influences control flow in the embedded code). -/
structure SpottingData where
  half : Int
  game_time : Int
  confidence : ℚ
  position : Int
  category : String
  query : Option String := none
  addiofo : Option (List String) := none
deriving DecidableEq, Repr

/-- `CommentData` dataclass (construct_query.py lines 81-86). -/
structure CommentData where
  half : Int
  start_time : Int
  text : String
  category : String
deriving DecidableEq, Repr

/-- `CommentDataList` dataclass (construct_query.py lines 89-91). -/
structure CommentDataList where
  comments : List CommentData
deriving DecidableEq, Repr

/-- `SpottingDataList` dataclass (construct_query.py lines 32-35). -/
structure SpottingDataList where
  spottings : List SpottingData
deriving DecidableEq, Repr

/-- One row of the player csv used by `VideoData` (construct_query.py
lines 144-163): columns game, half, time, team, name. -/
structure PlayerSighting where
  game : String
  half : Int
  time : Int
  team : String
  name : String
deriving DecidableEq, Repr

/-! ## Parsing raw detection records (`SpottingDataList.read_json`) -/

/-- Python `str.split(sep)` with an explicit one-character separator:
splits on every occurrence, keeping empty fields.  Auxiliary accumulator
form. -/
def pySplitAux (sep : Char) : List Char → List Char → List (List Char)
  | [], acc => [acc.reverse]
  | c :: rest, acc =>
    if c = sep then acc.reverse :: pySplitAux sep rest []
    else pySplitAux sep rest (c :: acc)

/-- Python `str.split(sep)` for a one-character separator. -/
def pySplit (sep : Char) (s : List Char) : List (List Char) :=
  pySplitAux sep s []

/-- Left-to-right accumulation of a digit run, `none` at a non-digit. -/
def pyDigitsAux : List Char → Nat → Option Nat
  | [], acc => some acc
  | c :: rest, acc =>
    if c.isDigit then pyDigitsAux rest (acc * 10 + (c.toNat - '0'.toNat))
    else none

/-- Digit run to a number, `none` on empty input or a non-digit. -/
def pyDigits (s : List Char) : Option Nat :=
  match s with
  | [] => none
  | _ => pyDigitsAux s 0

/-- Python `int(s)` on a trimmed literal: optional sign followed by digits,
`ValueError` (here `none`) otherwise. -/
def pyInt (s : List Char) : Option Int :=
  match s with
  | '-' :: rest => (pyDigits rest).map (fun n => -(n : Int))
  | _ => (pyDigits s).map (fun n => (n : Int))

/-- Raw entry of the `"predictions"` array of the input JSON
(construct_query.py line 201: `{"gameTime": "1 - 00:24", "half": ...,
"confidence": ..., "position": ..., "category": 0 or 1}`).  `confidence`
and `position` are already numeric in the JSON; `category` is kept as the
string `str(d["category"])` produces. -/
structure RawPrediction where
  gameTime : String
  half : String
  confidence : ℚ
  position : Int
  category : String
deriving DecidableEq, Repr

/-- `minutes, seconds = map(int, d["gameTime"].split(" ")[-1].split(":"))`
(construct_query.py line 43): take the last space-separated token of
`gameTime`, split it on `":"`, and require exactly two integer fields. -/
def parseGameTime (gameTime : String) : Option (Int × Int) :=
  let tok := (pySplit ' ' gameTime.data).getLastD []
  match pySplit ':' tok with
  | [m, s] => do
    let minutes ← pyInt m
    let seconds ← pyInt s
    pure (minutes, seconds)
  | _ => none

/-- Body of the `read_json` loop (construct_query.py lines 42-51): one raw
record to one `SpottingData`, with `game_time = minutes * 60 + seconds`
and `half = int(d["half"])`.  A parse failure is the Python exception. -/
def readRecord (d : RawPrediction) : Option SpottingData := do
  let (minutes, seconds) ← parseGameTime d.gameTime
  let hf ← pyInt d.half.data
  pure
    { half := hf
      game_time := minutes * 60 + seconds
      confidence := d.confidence
      position := d.position
      category := d.category }

/-- `SpottingDataList.read_json` (construct_query.py lines 37-53) on the
already-decoded `"predictions"` array: every record is parsed in order and
any failure aborts the whole read. -/
def read_json (predictions : List RawPrediction) : Option SpottingDataList :=
  (predictions.mapM readRecord).map SpottingDataList.mk

/-- `SpottingDataList.filter_by_category_1` (construct_query.py lines
55-57). -/
def filter_by_category_1 (spottings : SpottingDataList) : SpottingDataList :=
  ⟨spottings.spottings.filter (fun s => s.category == "1")⟩

/-! ## Comment windowing and query construction -/

/-- `CommentDataList.filter_by_half_and_time` (construct_query.py lines
120-136): comments of the given half with
`game_time - seconds_before <= start_time < game_time`. -/
def filter_by_half_and_time (comments : CommentDataList) (half : Int)
    (game_time : Int) (seconds_before : Int := 60) : CommentDataList :=
  ⟨comments.comments.filter (fun c =>
    c.half == half && game_time - seconds_before ≤ c.start_time
      && c.start_time < game_time)⟩

/-- `VideoData.get_data` (construct_query.py lines 153-163): sightings of
the given game and half within `sec_threshold` seconds of `game_time`. -/
def get_data (player_df : List PlayerSighting) (game : String) (half : Int)
    (game_time : Int) (sec_threshold : Int := 2) : List PlayerSighting :=
  player_df.filter (fun p =>
    p.half == half && p.game == game
      && game_time - sec_threshold ≤ p.time
      && p.time ≤ game_time + sec_threshold)

/-- Python `" ".join(xs)`: elements interleaved with single spaces. -/
def joinSp : List String → String
  | [] => ""
  | [s] => s
  | s :: rest => s ++ " " ++ joinSp rest

/-- The accumulation loop of `build_query` (construct_query.py lines
178-186), already running over the reversed (most-recent-first) comment
list: take a comment's text while `total_length + len(text) <= max_length`
and add `len(text) + 1` to the running total; `break` at the first comment
that fails the test. -/
def buildQueryLoop (max_length : Nat) : List CommentData → Nat → List String
  | [], _ => []
  | c :: rest, total =>
    if max_length < total + c.text.length then []
    else c.text :: buildQueryLoop max_length rest (total + c.text.length + 1)

/-- The comment portion of the query (construct_query.py lines 182-189):
greedy accumulation over `reversed(comments)`, re-reversed and joined with
single spaces. -/
def queryBody (comments : CommentDataList) (max_length : Nat) : String :=
  joinSp (buildQueryLoop max_length comments.comments.reverse 0).reverse

/-- The optional player line of `build_query` (construct_query.py line
194): `"<name> @ <team>"` entries joined with single spaces. -/
def playerLine (video_data : List PlayerSighting) : String :=
  joinSp (video_data.map (fun p => p.name ++ " @ " ++ p.team))

/-- `build_query` (construct_query.py lines 166-197): the comment portion
behind the fixed prefix, with the player line prepended when the
`video_data` keyword argument is a non-empty list. -/
def build_query (comments : CommentDataList) (max_length : Nat := 256)
    (video_data : List PlayerSighting := []) : String :=
  let query := "Previous comments: " ++ queryBody comments max_length
  if video_data.isEmpty then query
  else "Players shown in this frame: " ++ playerLine video_data ++ "\n\n" ++ query

/-! ## `construct_query.run`: per-event query construction and output -/

/-- The two serialization branches at the end of `construct_query.run`
(construct_query.py lines 253-256). -/
inductive WriteKind
  | json
  | jsonl
deriving DecidableEq, Repr

/-- Python `s.endswith(suffix)`. -/
def pyEndsWith (s suffix : String) : Bool :=
  suffix.data.isSuffixOf s.data

/-- Output decision of `construct_query.run` (construct_query.py lines
253-256): `to_json` when the name ends with `".json"`, `to_jsonline` when
it ends with `".jsonl"`, and no write at all otherwise. -/
def outputAction (output_file : String) : Option WriteKind :=
  if pyEndsWith output_file ".json" then some WriteKind.json
  else if pyEndsWith output_file ".jsonl" then some WriteKind.jsonl
  else none

/-- The per-event loop of `construct_query.run` (construct_query.py lines
240-251): each retained event gets its query built from the comment window
and the concurrent player sightings. -/
def buildResults (game : String) (spottings : SpottingDataList)
    (comments : CommentDataList) (players : List PlayerSighting) :
    SpottingDataList :=
  ⟨spottings.spottings.map (fun s =>
    { s with query := some (build_query
        (filter_by_half_and_time comments s.half s.game_time)
        256
        (get_data players game s.half s.game_time)) })⟩

/-- `construct_query.run` (construct_query.py lines 200-258) after file
reading: parse the predictions, keep category `"1"`, build every query,
and decide the output write.  `none` is a Python exception during
parsing. -/
def runConstructQuery (game : String) (predictions : List RawPrediction)
    (comments : CommentDataList) (players : List PlayerSighting)
    (output_file : String) : Option (SpottingDataList × Option WriteKind) := do
  let spotting_data_list ← read_json predictions
  let spotting_data_list := filter_by_category_1 spotting_data_list
  pure (buildResults game spotting_data_list comments players,
        outputAction output_file)

/-! ## Data model of `addinfo_retrieval.py` -/

/-- A value of one of the loosely-typed configuration dicts
(addinfo_retrieval.py lines 51-64): a string or a number. -/
inductive CfgVal
  | s (v : String)
  | n (v : ℚ)
deriving DecidableEq, Repr

/-- A Python dict used as configuration: association list of keys to
values. -/
abbrev Config : Type := List (String × CfgVal)

/-- Python dict subscript `cfg[key]`: `KeyError` (here `none`) when the
key is absent. -/
def cfgGet (cfg : Config) (key : String) : Option CfgVal :=
  List.lookup key cfg

/-- Exceptions raised by the embedded `addinfo_retrieval` code. -/
inductive PyError
  | keyError (key : String)
  | valueError (msg : String)
  | deserializationError
deriving DecidableEq, Repr

/-- The serialized index artifact living at `langchain_store_dir`
(addinfo_retrieval.py lines 260, 283): either a TFIDF retriever or a
FAISS vectorstore, each over its list of document chunks. -/
inductive StoredIndex
  | tfidf (docs : List String)
  | faiss (docs : List String)
deriving DecidableEq, Repr

/-- The retriever value returned by `get_retriever`: a TFIDF retriever
with its `k` attribute, or a FAISS retriever with its `search_kwargs`
dict. -/
inductive Retriever
  | tfidfR (docs : List String) (k : CfgVal)
  | faissR (docs : List String) (search_kwargs : Config)
deriving DecidableEq, Repr

/-- Default `EMBEDDING_CONFIG` (addinfo_retrieval.py lines 56-59); the
`__main__` block builds the same shape from `args` (lines 332-335).  Note
it has no `"k"` and no `"score_threshold"` key. -/
def EMBEDDING_CONFIG : Config :=
  [("model", CfgVal.s "text-embedding-ada-002"), ("chunk_size", CfgVal.n 1000)]

/-- Default `SEARCH_CONFIG` (addinfo_retrieval.py lines 61-64); the
`__main__` block builds the same shape from `args` (lines 337-340). -/
def SEARCH_CONFIG : Config :=
  [("k", CfgVal.n 10), ("score_threshold", CfgVal.n (7 / 10))]

/-- `get_retriever` (addinfo_retrieval.py lines 247-298).  The document
splitter (`get_document_splits`, a `RecursiveCharacterTextSplitter` from
langchain) and the index store are external collaborators: the splitter is
an opaque function parameter, the store directory is an explicit
`Option StoredIndex` (absent ⇔ `not os.path.exists(langchain_store_dir)`),
and the result pairs the returned retriever (or raised exception) with the
store as the call leaves it.  Effect order follows the source: in the
tfidf branch a fresh index is saved before `retriever.k =
embedding_config["k"]` runs, while in the embedding branch the
`search_kwargs` dict — built from `embedding_config["score_threshold"]`
then `embedding_config["k"]` — is evaluated before `save_local`. -/
def get_retriever (split : List String → List String) (type : String)
    (store : Option StoredIndex) (embedding_config : Config)
    (search_config : Config) (corpus : List String) :
    Except PyError Retriever × Option StoredIndex :=
  if type = "tfidf" then
    match store with
    | none =>
      let splits := split corpus
      let store' := some (StoredIndex.tfidf splits)
      match cfgGet embedding_config "k" with
      | some kv => (Except.ok (Retriever.tfidfR splits kv), store')
      | none => (Except.error (PyError.keyError "k"), store')
    | some (StoredIndex.tfidf docs) =>
      match cfgGet embedding_config "k" with
      | some kv => (Except.ok (Retriever.tfidfR docs kv), store)
      | none => (Except.error (PyError.keyError "k"), store)
    | some (StoredIndex.faiss _) =>
      (Except.error PyError.deserializationError, store)
  else if type = "openai-embedding" then
    match store with
    | none =>
      let splits := split corpus
      match cfgGet embedding_config "score_threshold" with
      | none => (Except.error (PyError.keyError "score_threshold"), store)
      | some st =>
        match cfgGet embedding_config "k" with
        | none => (Except.error (PyError.keyError "k"), store)
        | some kv =>
          (Except.ok (Retriever.faissR splits
              [("score_threshold", st), ("k", kv)]),
           some (StoredIndex.faiss splits))
    | some (StoredIndex.faiss docs) =>
      (Except.ok (Retriever.faissR docs search_config), store)
    | some (StoredIndex.tfidf _) =>
      (Except.error PyError.deserializationError, store)
  else
    (Except.error (PyError.valueError
        ("Invalid retriever type: " ++ type
          ++ ". Use 'tfidf' or 'openai-embedding'.")), store)

/-! ## The generation pipeline (`addinfo_retrieval.run`) -/

/-- Modelled from the spec: `SpottingData` of `sn_providing.entity`, the
event record consumed by `addinfo_retrieval.run` (the entity module is not
under src/).  Spec §3: half, game_time, confidence, position, category,
query (optional), generated_text (optional); `run` additionally reads a
`game` field (addinfo_retrieval.py line 155). -/
structure SpottingEvent where
  game : String
  half : Int
  game_time : Int
  confidence : ℚ
  position : Int
  category : String
  query : Option String := none
  generated_text : Option String := none
deriving DecidableEq, Repr

/-- Modelled from the spec: `ReferenceDoc` of `sn_providing.entity` (not
under src/).  Spec §3: game, half, time, content; keyed by the exact
(game, half, time) triple. -/
structure ReferenceDoc where
  game : String
  half : Int
  time : Int
  content : String
deriving DecidableEq, Repr

/-- Modelled from the spec: `ReferenceDoc.get_reference_documents` of
`sn_providing.entity` (not under src/).  Spec §3/§4.4: the content of the
reference document whose (game, half, time) triple matches exactly, `None`
when no document matches. -/
def get_reference_documents (reference_documents : List ReferenceDoc)
    (game : String) (half : Int) (time : Int) : Option String :=
  (reference_documents.find? (fun d =>
    d.game == game && d.half == half && d.time == time)).map ReferenceDoc.content

/-- The `INSTRUCTION` constant (addinfo_retrieval.py lines 66-71). -/
def INSTRUCTION : String :=
  "You are a professional color commentator for a live broadcast of soccer. \n"
    ++ "Using the documents below, \n"
    ++ "provide just one comment with a fact, such as player records or team statistics, relevant to the current soccer match. \n"
    ++ "The comment should be short, clear, accurate, and suitable for live commentary. \n"
    ++ "The game date will be given as YYYY-MM-DD. Do not use information dated after this.\n"
    ++ "This comment should be natural comments following the previous comments given to the prompt."

/-- `prompt_template` (addinfo_retrieval.py lines 82-89) with its three
placeholders substituted. -/
def mkPrompt (instruction documents query : String) : String :=
  instruction ++ "\n\n===documents\n" ++ documents ++ "\n===\n" ++ query
    ++ "\n\nComment:"

/-- `prompt_template_no_retrieval` (addinfo_retrieval.py lines 74-79) with
its two placeholders substituted. -/
def mkPromptNoRetrieval (instruction query : String) : String :=
  instruction ++ "\n\n===\n" ++ query ++ "\n\nComment:"

/-- Whether `addinfo_retrieval.run` drops the event because the gold
strategy is active and no reference document matches
(addinfo_retrieval.py lines 152-163). -/
def goldMiss (refs : Option (List ReferenceDoc)) (e : SpottingEvent) : Bool :=
  match refs with
  | none => false
  | some rd =>
    (get_reference_documents rd e.game e.half e.game_time).isNone

/-- The per-event loop of `addinfo_retrieval.run` (addinfo_retrieval.py
lines 146-169): skip events with a null query, skip gold-strategy events
without a reference document, otherwise invoke the chain, attach the
response, and append the event to the result list.  `rag_chain.invoke` is
the opaque `invoke` parameter.  Returns the result list together with the
list of events for which a generation call was made, both in input
order. -/
def runAddinfo (refs : Option (List ReferenceDoc))
    (invoke : SpottingEvent → String) :
    List SpottingEvent → List SpottingEvent × List SpottingEvent
  | [] => ([], [])
  | e :: rest =>
    if e.query.isNone then runAddinfo refs invoke rest
    else if goldMiss refs e then runAddinfo refs invoke rest
    else
      let response := invoke e
      let done := runAddinfo refs invoke rest
      ({ e with generated_text := some response } :: done.1, e :: done.2)

/-- The gold-reference chain of `get_rag_chain` (addinfo_retrieval.py
lines 206-225): the prompt template filled with the instruction, the
matched reference document's content, and the event's query, then sent to
the opaque `llm`. -/
def goldInvoke (reference_doc_data : List ReferenceDoc)
    (llm : String → String) (e : SpottingEvent) : String :=
  llm (mkPrompt INSTRUCTION
    ((get_reference_documents reference_doc_data e.game e.half e.game_time).getD "")
    (e.query.getD ""))

/-- The events `addinfo_retrieval.run` keeps: query present, and under the
gold strategy a reference document present. -/
def keepEvent (refs : Option (List ReferenceDoc)) (e : SpottingEvent) : Bool :=
  e.query.isSome && !goldMiss refs e

/-! ## Helper lemmas about joining and the accumulation loop -/

/-- Cost of a list of texts as `build_query` accounts it: each text plus
one separator character. -/
def sumSep (xs : List String) : Nat :=
  (xs.map (fun s => s.length + 1)).sum

theorem length_space : (" " : String).length = 1 := rfl

theorem sumSep_reverse (xs : List String) : sumSep xs.reverse = sumSep xs := by
  simp [sumSep, List.sum_reverse]

theorem joinSp_length (xs : List String) (h : xs ≠ []) :
    (joinSp xs).length + 1 = sumSep xs := by
  induction xs with
  | nil => exact absurd rfl h
  | cons s rest ih =>
    cases rest with
    | nil => simp [joinSp, sumSep]
    | cons t rest₂ =>
      have ih₂ := ih (by simp)
      show (s ++ " " ++ joinSp (t :: rest₂)).length + 1 = sumSep (s :: t :: rest₂)
      rw [String.length_append, String.length_append, length_space]
      simp only [sumSep, List.map_cons, List.sum_cons] at ih₂ ⊢
      omega

theorem buildQueryLoop_sumSep (max_length : Nat) (l : List CommentData) :
    ∀ total : Nat, buildQueryLoop max_length l total ≠ [] →
      total + sumSep (buildQueryLoop max_length l total) ≤ max_length + 1 := by
  induction l with
  | nil => intro total h; exact absurd rfl h
  | cons c rest ih =>
    intro total h
    by_cases hc : max_length < total + c.text.length
    · rw [buildQueryLoop, if_pos hc] at h
      exact absurd rfl h
    · rw [buildQueryLoop, if_neg hc] at h ⊢
      by_cases h₂ : buildQueryLoop max_length rest (total + c.text.length + 1) = []
      · rw [h₂]
        simp only [sumSep, List.map_cons, List.map_nil, List.sum_cons,
          List.sum_nil]
        omega
      · have ih₂ := ih (total + c.text.length + 1) h₂
        simp only [sumSep, List.map_cons, List.sum_cons] at ih₂ ⊢
        omega

theorem queryBody_length_le (comments : CommentDataList) (max_length : Nat) :
    (queryBody comments max_length).length ≤ max_length := by
  rw [queryBody]
  by_cases h : buildQueryLoop max_length comments.comments.reverse 0 = []
  · rw [h]
    simp [joinSp]
  · have hrev : (buildQueryLoop max_length comments.comments.reverse 0).reverse ≠ [] := by
      simpa using h
    have hlen := joinSp_length _ hrev
    have hsum := buildQueryLoop_sumSep max_length comments.comments.reverse 0 h
    rw [sumSep_reverse] at hlen
    omega

/-! ## Claim theorems -/

/-- Example comment list used as concrete witness input (spec §8 example:
two half-1 comments at 10 s and 40 s). -/
def exComments : List CommentData :=
  [⟨1, 10, "Goal!", "1"⟩, ⟨1, 40, "Nice pass", "1"⟩]

/-- C1: for every comment list sorted ascending by `start_time` and every
`max_chars`, the comment-text portion of the string `build_query` returns
(the part following the fixed prefix `"Previous comments: "`, excluding
any player line) has length at most `max_chars`; the returned string is
exactly the optional player line followed by the fixed prefix and that
portion.  The greedy most-recent-backward accumulation with one separator
character per comment, stopping at the first comment that would exceed the
budget, is embedded in `buildQueryLoop`/`queryBody`. -/
theorem c1_build_query_comment_budget (comments : CommentDataList)
    (max_chars : Nat)
    (_h : List.Sorted (fun a b : CommentData => a.start_time ≤ b.start_time)
      comments.comments) :
    (queryBody comments max_chars).length ≤ max_chars ∧
      ∀ video_data : List PlayerSighting,
        build_query comments max_chars video_data =
          (if video_data.isEmpty then ""
            else "Players shown in this frame: " ++ playerLine video_data ++ "\n\n")
            ++ ("Previous comments: " ++ queryBody comments max_chars) := by
  refine ⟨queryBody_length_le comments max_chars, ?_⟩
  intro video_data
  by_cases hv : video_data.isEmpty <;>
    simp [build_query, hv, String.append_assoc]

/-- Witness for C1 at the spec's concrete two-comment example. -/
theorem c1_build_query_comment_budget_witness :
    (List.Sorted (fun a b : CommentData => a.start_time ≤ b.start_time)
      exComments) ∧
      ((queryBody ⟨exComments⟩ 256).length ≤ 256 ∧
        ∀ video_data : List PlayerSighting,
          build_query ⟨exComments⟩ 256 video_data =
            (if video_data.isEmpty then ""
              else "Players shown in this frame: " ++ playerLine video_data ++ "\n\n")
              ++ ("Previous comments: " ++ queryBody ⟨exComments⟩ 256)) :=
  ⟨by decide, c1_build_query_comment_budget ⟨exComments⟩ 256 (by decide)⟩

/-- Behaviour of the `addinfo_retrieval.run` loop: the result list is the
kept subsequence with the chain response attached, and the generation
calls are made exactly for the kept events, in input order. -/
theorem runAddinfo_eq (refs : Option (List ReferenceDoc))
    (invoke : SpottingEvent → String) (events : List SpottingEvent) :
    runAddinfo refs invoke events =
      ((events.filter (keepEvent refs)).map
          (fun e => { e with generated_text := some (invoke e) }),
        events.filter (keepEvent refs)) := by
  induction events with
  | nil => rfl
  | cons e rest ih =>
    cases hq : e.query with
    | none => simp [runAddinfo, List.filter_cons, keepEvent, hq, ih]
    | some q =>
      by_cases hm : goldMiss refs e
      · simp [runAddinfo, List.filter_cons, keepEvent, hq, hm, ih]
      · simp [runAddinfo, List.filter_cons, keepEvent, hq, hm, ih]

/-- C2: under the gold-reference strategy, an event whose
(game, half, game_time) triple has no exactly matching reference document
is absent from the output, and a generated event's prompt carries exactly
the matched document's content in its documents section: the output is
precisely the kept subsequence, each event's generated text produced from
the prompt template filled with the matched content. -/
theorem c2_gold_reference_strategy (refs : List ReferenceDoc)
    (llm : String → String) (events : List SpottingEvent) :
    (runAddinfo (some refs) (goldInvoke refs llm) events).1 =
      (events.filter (keepEvent (some refs))).map (fun e =>
        { e with generated_text := some (llm (mkPrompt INSTRUCTION
            ((get_reference_documents refs e.game e.half e.game_time).getD "")
            (e.query.getD ""))) }) :=
  congrArg Prod.fst (runAddinfo_eq (some refs) (goldInvoke refs llm) events)

/-- C6: an event whose query is null receives no generation call and is
absent from the output; the output is exactly the kept subsequence of the
input, in input order, each event with its generated text attached, and
the generation calls are exactly the kept events (whose query is
non-null by `keepEvent`). -/
theorem c6_generation_output_subsequence (refs : Option (List ReferenceDoc))
    (invoke : SpottingEvent → String) (events : List SpottingEvent) :
    runAddinfo refs invoke events =
      ((events.filter (keepEvent refs)).map
          (fun e => { e with generated_text := some (invoke e) }),
        events.filter (keepEvent refs)) :=
  runAddinfo_eq refs invoke events

/-- C5: the comment-window filter keeps exactly the comments of the given
half whose start time lies in the half-open interval
[game_time − window, game_time); the window parameter defaults to 60; and
on the spec's concrete example both comments qualify and the built query
is `"Previous comments: Goal! Nice pass"`. -/
theorem c5_filter_window_halfopen :
    (∀ (comments : CommentDataList) (half game_time window : Int)
        (c : CommentData),
      c ∈ (filter_by_half_and_time comments half game_time window).comments ↔
        c ∈ comments.comments ∧ c.half = half ∧
          game_time - window ≤ c.start_time ∧ c.start_time < game_time) ∧
      (∀ (comments : CommentDataList) (half game_time : Int),
        filter_by_half_and_time comments half game_time =
          filter_by_half_and_time comments half game_time 60) ∧
      build_query (filter_by_half_and_time ⟨exComments⟩ 1 50 60) 256 [] =
        "Previous comments: Goal! Nice pass" := by
  refine ⟨?_, fun _ _ _ => rfl, by decide⟩
  intro comments half game_time window c
  simp [filter_by_half_and_time, List.mem_filter, and_assoc]

/-- C7: event ingestion retains exactly the events whose category is the
string `"1"`, preserving source order (the retained list is a sublist of
the source list), and `game_time` is computed from the MM:SS portion of
`gameTime` as minutes*60 + seconds (concretely, `"1 - 12:34"` parses to
754 seconds). -/
theorem c7_category_filter_and_game_time :
    (∀ (l : SpottingDataList) (s : SpottingData),
        s ∈ (filter_by_category_1 l).spottings ↔
          s ∈ l.spottings ∧ s.category = "1") ∧
      (∀ l : SpottingDataList,
        (filter_by_category_1 l).spottings.Sublist l.spottings) ∧
      readRecord ⟨"1 - 12:34", "1", 1, 100, "1"⟩ =
        some { half := 1, game_time := 754, confidence := 1, position := 100,
               category := "1" } := by
  refine ⟨?_, fun l => List.filter_sublist l.spottings, by decide⟩
  intro l s
  simp [filter_by_category_1, List.mem_filter]

/-! ## Lemmas about `pySplit` for the gameTime parsing claims -/

theorem pySplitAux_ne_nil (sep : Char) (l : List Char) :
    ∀ acc, pySplitAux sep l acc ≠ [] := by
  induction l with
  | nil => intro acc; simp [pySplitAux]
  | cons c rest ih =>
    intro acc
    rw [pySplitAux]
    by_cases hc : c = sep
    · simp [hc]
    · simpa [hc] using ih (c :: acc)

theorem pySplitAux_not_mem (sep : Char) (l : List Char) (h : sep ∉ l) :
    ∀ acc, pySplitAux sep l acc = [acc.reverse ++ l] := by
  induction l with
  | nil => intro acc; simp [pySplitAux]
  | cons c rest ih =>
    intro acc
    have hc : ¬ c = sep := by
      intro e
      exact h (by rw [← e]; exact List.mem_cons_self c rest)
    rw [pySplitAux, if_neg hc,
      ih (fun hm => h (List.mem_cons_of_mem _ hm)) (c :: acc)]
    simp

theorem getLastD_irrel {α : Type _} (l : List α) (h : l ≠ []) (d₁ d₂ : α) :
    l.getLastD d₁ = l.getLastD d₂ := by
  cases l with
  | nil => exact absurd rfl h
  | cons x xs => rw [List.getLastD_cons, List.getLastD_cons]

theorem pySplitAux_append_getLast (sep : Char) (suf : List Char)
    (l : List Char) : ∀ acc,
    (pySplitAux sep (l ++ sep :: suf) acc).getLastD [] =
      (pySplitAux sep suf []).getLastD [] := by
  induction l with
  | nil =>
    intro acc
    show (pySplitAux sep (sep :: suf) acc).getLastD [] = _
    rw [pySplitAux, if_pos rfl, List.getLastD_cons]
    exact getLastD_irrel _ (pySplitAux_ne_nil sep suf []) _ _
  | cons c rest ih =>
    intro acc
    rw [List.cons_append, pySplitAux]
    by_cases hc : c = sep
    · rw [if_pos hc, List.getLastD_cons]
      rw [getLastD_irrel _ (pySplitAux_ne_nil sep (rest ++ sep :: suf) []) acc.reverse []]
      exact ih []
    · rw [if_neg hc]
      exact ih (c :: acc)

/-- When the gameTime string is a prefix, a space, and a tail,
`parseGameTime` sees only the last space-separated token, so the half
prefix is ignored. -/
theorem parseGameTime_drop_head (pre suf : List Char) :
    parseGameTime (String.mk (pre ++ ' ' :: suf)) =
      parseGameTime (String.mk suf) := by
  have hl : (pySplit ' ' (String.mk (pre ++ ' ' :: suf)).data).getLastD [] =
      (pySplitAux ' ' suf []).getLastD [] :=
    pySplitAux_append_getLast ' ' suf pre []
  have hr : (pySplit ' ' (String.mk suf).data).getLastD [] =
      (pySplitAux ' ' suf []).getLastD [] := rfl
  simp only [parseGameTime, hl, hr]

/-- C10: the half prefix inside the `gameTime` string is ignored entirely:
parsing a record whose `gameTime` is any prefix followed by a space and a
space-free `MM:SS` tail gives the same result as parsing the tail alone,
so the event's half comes only from the separate `half` field; concretely,
a record with `gameTime = "2 - 01:00"` but `half = "1"` is accepted and
resolved to half 1, game_time 60. -/
theorem c10_gameTime_half_ignored :
    (∀ (pre suf : List Char) (hf : String) (conf : ℚ) (pos : Int)
        (cat : String), ' ' ∉ suf →
      readRecord ⟨String.mk (pre ++ ' ' :: suf), hf, conf, pos, cat⟩ =
        readRecord ⟨String.mk suf, hf, conf, pos, cat⟩) ∧
      readRecord ⟨"2 - 01:00", "1", 1, 5, "1"⟩ =
        some { half := 1, game_time := 60, confidence := 1, position := 5,
               category := "1" } := by
  refine ⟨?_, by decide⟩
  intro pre suf hf conf pos cat _h
  simp only [readRecord, parseGameTime_drop_head pre suf]

/-- Witness for C10: the contradictory record `gameTime = "2 - 01:00"`,
`half = "1"` parses exactly as the bare `"01:00"` would. -/
theorem c10_gameTime_half_ignored_witness :
    (' ' ∉ ("01:00".data : List Char)) ∧
      readRecord ⟨String.mk ("2 -".data ++ ' ' :: "01:00".data), "1", 1, 5, "1"⟩ =
        readRecord ⟨String.mk "01:00".data, "1", 1, 5, "1"⟩ :=
  ⟨by decide,
    c10_gameTime_half_ignored.1 "2 -".data "01:00".data "1" 1 5 "1" (by decide)⟩

/-- C8: an unknown retriever type fails immediately with the
`ValueError` carrying the source's message (the spec's ConfigError),
leaving the index store untouched — nothing is built, loaded, or
written. -/
theorem c8_unknown_strategy_config_error
    (split : List String → List String) (type : String)
    (store : Option StoredIndex) (embedding_config search_config : Config)
    (corpus : List String) (h₁ : type ≠ "tfidf")
    (h₂ : type ≠ "openai-embedding") :
    get_retriever split type store embedding_config search_config corpus =
      (Except.error (PyError.valueError
        ("Invalid retriever type: " ++ type
          ++ ". Use 'tfidf' or 'openai-embedding'.")), store) := by
  simp [get_retriever, h₁, h₂]

/-- Witness for C8 at the unknown strategy name `"bm25"`. -/
theorem c8_unknown_strategy_config_error_witness :
    ("bm25" ≠ "tfidf") ∧ ("bm25" ≠ "openai-embedding") ∧
      get_retriever (fun l => l) "bm25" none [] [] [] =
        (Except.error (PyError.valueError
          ("Invalid retriever type: " ++ "bm25"
            ++ ". Use 'tfidf' or 'openai-embedding'.")), none) :=
  ⟨by decide, by decide,
    c8_unknown_strategy_config_error (fun l => l) "bm25" none [] [] []
      (by decide) (by decide)⟩

/-- C3 (code bug): with the configurations every caller passes
(`EMBEDDING_CONFIG` without a `"k"` key, `SEARCH_CONFIG` carrying `k` and
`score_threshold`), the tfidf branch of `get_retriever` raises
`KeyError('k')` — it reads `embedding_config["k"]` instead of the search
configuration — on the fresh-build path (after having already written the
index) and on the reload path alike. -/
theorem c3_tfidf_k_keyerror (split : List String → List String)
    (corpus docs : List String) :
    get_retriever split "tfidf" none EMBEDDING_CONFIG SEARCH_CONFIG corpus =
      (Except.error (PyError.keyError "k"),
        some (StoredIndex.tfidf (split corpus))) ∧
    get_retriever split "tfidf" (some (StoredIndex.tfidf docs))
        EMBEDDING_CONFIG SEARCH_CONFIG corpus =
      (Except.error (PyError.keyError "k"), some (StoredIndex.tfidf docs)) := by
  constructor <;> rfl

/-- C4 (code bug): with the configurations every caller passes, a fresh
embedding-strategy build raises `KeyError('score_threshold')` — the
`search_kwargs` dict is built from `embedding_config`, which has no such
key — before anything is persisted, while the reload path succeeds and
reuses the stored index as-is (for any corpus and any search
configuration), so the round-trip can never yield results identical to a
fresh build. -/
theorem c4_embedding_roundtrip_broken (split : List String → List String)
    (corpus docs : List String) (search_config : Config) :
    get_retriever split "openai-embedding" none EMBEDDING_CONFIG
        SEARCH_CONFIG corpus =
      (Except.error (PyError.keyError "score_threshold"), none) ∧
    get_retriever split "openai-embedding" (some (StoredIndex.faiss docs))
        EMBEDDING_CONFIG search_config corpus =
      (Except.ok (Retriever.faissR docs search_config),
        some (StoredIndex.faiss docs)) := by
  constructor <;> rfl

/-- C9: when the output file name ends with neither `".json"` nor
`".jsonl"`, `construct_query.run` completes without error, performs all
query construction, and writes nothing: the write decision is `none`. -/
theorem c9_unrecognized_extension_silent (game : String)
    (predictions : List RawPrediction) (comments : CommentDataList)
    (players : List PlayerSighting) (output_file : String)
    (h₁ : pyEndsWith output_file ".json" = false)
    (h₂ : pyEndsWith output_file ".jsonl" = false) :
    runConstructQuery game predictions comments players output_file =
      (read_json predictions).map (fun sl =>
        (buildResults game (filter_by_category_1 sl) comments players,
          none)) := by
  have hout : outputAction output_file = none := by
    simp [outputAction, h₁, h₂]
  cases hrj : read_json predictions with
  | none => simp [runConstructQuery, hrj]
  | some sl => simp [runConstructQuery, hrj, hout]

/-- Witness for C9 at the output name `"out.txt"`. -/
theorem c9_unrecognized_extension_silent_witness :
    (pyEndsWith "out.txt" ".json" = false) ∧
      (pyEndsWith "out.txt" ".jsonl" = false) ∧
      runConstructQuery "g" [] ⟨[]⟩ [] "out.txt" =
        (read_json []).map (fun sl =>
          (buildResults "g" (filter_by_category_1 sl) ⟨[]⟩ [], none)) :=
  ⟨by decide, by decide,
    c9_unrecognized_extension_silent "g" [] ⟨[]⟩ [] "out.txt"
      (by decide) (by decide)⟩

end SnProviding
